import Mathlib

/-!
Verification development for the bank-management-system repository
(src/bank_app.py and src/db_config.py).

The Python source is shallowly embedded: the relational store becomes an
explicit in-memory list of rows threaded through each operation, currency
amounts become exact rationals (the store's DECIMAL column is exact to at
least 2 places; `ℚ` refines it), user-facing message strings become
structured message values carrying the same data, and the process-wide
`st.cache_resource` connection cache becomes an explicit cache state.
-/

namespace Bank

/-! ### Embedding of src/db_config.py -/

/-- `MAX_RETRIES = 5` from db_config.py. -/
def MAX_RETRIES : Nat := 5

/-- `RETRY_DELAY = 2` (seconds) from db_config.py. -/
def RETRY_DELAY : Nat := 2

/-- Observable events of the connection loop: a connection attempt (with its
0-based index), a sleep of a given duration, the user-visible `st.error`
message, and the `st.stop()` process halt. -/
inductive Event where
  | attempt (i : Nat)
  | sleep (d : Nat)
  | errorShown
  | stopped
deriving DecidableEq, Repr

/-- The body of `connect`'s `for attempt in range(MAX_RETRIES)` loop.
`fails i` tells whether the `mysql.connector.connect` call of attempt `i`
raises `Error`.  `remaining` is the number of loop iterations left and
`attempt` the current 0-based attempt index.  Returns the successful
attempt's index (`none` when the loop never returns) together with the
trace of observable events.  The `0, _` case is the fall-through
`st.stop()` on line 45, unreachable when started with `remaining = MAX_RETRIES`. -/
def connectRetry (fails : Nat → Bool) : Nat → Nat → Option Nat × List Event
  | 0, _ => (none, [Event.stopped])
  | remaining + 1, attempt =>
    if fails attempt then
      if remaining = 0 then
        (none, [Event.attempt attempt, Event.errorShown, Event.stopped])
      else
        let r := connectRetry fails remaining (attempt + 1)
        (r.1, Event.attempt attempt :: Event.sleep RETRY_DELAY :: r.2)
    else
      (some attempt, [Event.attempt attempt])

/-- A vector of outcomes for the at most `MAX_RETRIES` attempts, padded so
that indices past the vector always fail (they are never consulted), run
through the retry loop exactly as `connect` starts it. -/
def connectRun (b : Fin 5 → Bool) : Option Nat × List Event :=
  connectRetry (fun n => if h : n < 5 then b ⟨n, h⟩ else true) MAX_RETRIES 0

/-- Number of connection attempts recorded in a trace. -/
def countAttempts (tr : List Event) : Nat :=
  tr.countP (fun e => match e with | Event.attempt _ => true | _ => false)

/-- Number of sleeps recorded in a trace. -/
def countSleeps (tr : List Event) : Nat :=
  tr.countP (fun e => match e with | Event.sleep _ => true | _ => false)

/-- Every sleep recorded in the trace has the fixed duration `RETRY_DELAY`. -/
def sleepsOk (tr : List Event) : Bool :=
  tr.all (fun e => match e with | Event.sleep d => d == RETRY_DELAY | _ => true)

/-- State of the `@st.cache_resource` cache wrapping `connect`: the cached
handle, if any, and a counter distinguishing successive real connections
(each real connection produces a fresh handle). -/
structure Cache where
  cached : Option Nat
  nextHandle : Nat
deriving DecidableEq, Repr

/-- The cached `connect` as callers in bank_app.py see it: a cache hit
returns the cached handle unchanged; a miss performs the real connection
work and caches the fresh handle. -/
def connect (s : Cache) : Nat × Cache :=
  match s.cached with
  | some h => (h, s)
  | none => (s.nextHandle, ⟨some s.nextHandle, s.nextHandle + 1⟩)

/-- `connect.clear()`: Streamlit's cache invalidation, emptying the cache so
the next `connect` call reconnects. -/
def connect.clear (s : Cache) : Cache := ⟨none, s.nextHandle⟩

/-! ### Embedding of src/bank_app.py: accounts table and ledger operations -/

/-- A row of the `accounts` table: `id` (AUTO_INCREMENT primary key),
`name`, `email`, `balance`. -/
structure Account where
  id : Nat
  name : String
  email : String
  balance : ℚ
deriving DecidableEq, Repr

/-- The `accounts` table. -/
abbrev Ledger := List Account

/-- `SELECT ... FROM accounts WHERE id = %s` followed by `fetchone()`:
the first row matching the id. -/
def findAccount (db : Ledger) (accId : Nat) : Option Account :=
  db.find? (fun a => a.id == accId)

/-- `UPDATE accounts SET balance = ... WHERE id = %s`: applies `f` to the
balance of every row matching the id. -/
def setBalance (db : Ledger) (accId : Nat) (f : ℚ → ℚ) : Ledger :=
  db.map (fun a => if a.id == accId then { a with balance := f a.balance } else a)

/-- `cursor.rowcount` after `UPDATE accounts SET balance = balance ± amount
WHERE id = %s`: MySQL reports rows whose stored value actually changed, so
it is the number of rows matching the id when `amount ≠ 0`, and `0` when
`amount = 0`. -/
def affectedRows (db : Ledger) (accId : Nat) (amount : ℚ) : Nat :=
  if amount = 0 then 0 else (db.filter (fun a => a.id == accId)).length

/-- The user-facing result messages of `update_balance`, one constructor per
message string in the source; `insufficientBalance` carries the current
balance interpolated into the message, `success` the `action_word`. -/
inductive Msg where
  | accountNotFound
  | insufficientBalance (current : ℚ)
  | invalidOperation
  | notFoundOrNoChange
  | success (actionWord : String)
deriving DecidableEq, Repr

/-- `update_balance(acc_id, amount, operation)` from bank_app.py lines
180-212.  WITHDRAW first reads the current balance, failing when no row
matches or when `current_balance < amount`; DEPOSIT updates
unconditionally; any other operation string fails without touching the
store.  After the UPDATE the code fails (without committing, so the store
is unchanged) when `rowcount == 0`, and otherwise commits and reports
success. -/
def update_balance (db : Ledger) (accId : Nat) (amount : ℚ) (operation : String) :
    (Bool × Msg) × Ledger :=
  if operation = "WITHDRAW" then
    match findAccount db accId with
    | none => ((false, Msg.accountNotFound), db)
    | some acc =>
      if acc.balance < amount then
        ((false, Msg.insufficientBalance acc.balance), db)
      else
        let db1 := setBalance db accId (fun b => b - amount)
        if affectedRows db accId amount = 0 then ((false, Msg.notFoundOrNoChange), db)
        else ((true, Msg.success "WITHDRAWAL"), db1)
  else if operation = "DEPOSIT" then
    let db1 := setBalance db accId (fun b => b + amount)
    if affectedRows db accId amount = 0 then ((false, Msg.notFoundOrNoChange), db)
    else ((true, Msg.success "DEPOSITED"), db1)
  else
    ((false, Msg.invalidOperation), db)

/-- Result of `get_balance`: either the `{"name": ..., "balance": ...}`
dict or the `"ACCOUNT NOT FOUND"` message. -/
inductive BalanceResult where
  | found (name : String) (balance : ℚ)
  | accountNotFound
deriving DecidableEq, Repr

/-- `get_balance(acc_id)` from bank_app.py lines 214-228. -/
def get_balance (db : Ledger) (accId : Nat) : Bool × BalanceResult :=
  match findAccount db accId with
  | some a => (true, BalanceResult.found a.name a.balance)
  | none => (false, BalanceResult.accountNotFound)

/-- The column names produced by `cursor.description` for
`SELECT id, name, email, balance FROM accounts` (returned even when the
result set is empty). -/
def COLUMNS : List String := ["id", "name", "email", "balance"]

/-- `get_all_accounts()` from bank_app.py lines 167-178.  `store = none`
models the `mysql.connector.Error` path, on which the function (after an
`st.error` display) returns `([], [])`; otherwise it returns the column
names and all rows. -/
def get_all_accounts (store : Option Ledger) :
    List String × List (Nat × String × String × ℚ) :=
  match store with
  | some db => (COLUMNS, db.map (fun a => (a.id, a.name, a.email, a.balance)))
  | none => ([], [])

/-- The core of `transaction_ui(operation)` (bank_app.py lines 274-296)
once the form is submitted: after validating `amount > 0` and
`acc_id ≥ 1` it calls `update_balance`; on success it calls `get_balance`
and, when that succeeds, displays the updated balance.  The first
component is the updated-balance figure displayed to the user (`none`
when no balance is displayed); `operation` is already upper-cased as by
`operation.upper()`. -/
def transaction_ui (db : Ledger) (accId : Nat) (amount : ℚ) (operation : String) :
    Option ℚ × Ledger :=
  if amount ≤ 0 then (none, db)
  else if accId < 1 then (none, db)
  else
    let r := update_balance db accId amount operation
    if r.1.1 then
      match get_balance r.2 accId with
      | (true, BalanceResult.found _ b) => (some b, r.2)
      | _ => (none, r.2)
    else (none, r.2)

/-- `update_balance` as the application runs it, with the connection cache
threaded through: `db = connect()` first, and `connect.clear()` exactly on
the success path (bank_app.py line 206); every failure path returns before
the clear. -/
def update_balance_app (s : Cache) (db : Ledger) (accId : Nat) (amount : ℚ)
    (operation : String) : Cache × ((Bool × Msg) × Ledger) :=
  let p := connect s
  let r := update_balance db accId amount operation
  if r.1.1 then (connect.clear p.2, r) else (p.2, r)

/-- `create_account_db(name, email, balance)` (bank_app.py lines 153-165)
with the connection cache threaded through: `db = connect()`, INSERT a row
with the next AUTO_INCREMENT id, then `connect.clear()` (line 162) on the
success path; `storeOk = false` models the `mysql.connector.Error` path,
which returns before the clear. -/
def create_account_db (storeOk : Bool) (s : Cache) (db : Ledger)
    (nm em : String) (bal : ℚ) : Cache × Ledger × Bool :=
  let p := connect s
  if storeOk then
    let newId := (db.map (fun a => a.id)).foldr max 0 + 1
    (connect.clear p.2, db ++ [⟨newId, nm, em, bal⟩], true)
  else (p.2, db, false)

/-! ### Embedding of src/bank_app.py: users table, registration, authentication -/

/-- The bcrypt primitive as the spec treats it: an opaque salted one-way
hash over some hash type `H` (`hashpw password salt`) with a paired
verifier (`checkpw password hash`). -/
structure HashPrim (H : Type) where
  hashpw : String → String → H
  checkpw : String → H → Bool

/-- A row of the `users` table (the columns this code reads/writes). -/
structure UserRow (H : Type) where
  email : String
  password_hash : H
deriving DecidableEq, Repr

/-- Result messages of `register_user`, one constructor per message string
in the source; the duplicate-email case is the `'Duplicate entry' ...
'email'` branch raised by the UNIQUE constraint on `users.email`. -/
inductive RegMsg where
  | registered
  | duplicateEmail
deriving DecidableEq, Repr

/-- `register_user(email, password)` from bank_app.py lines 48-66: hashes
the password with a fresh salt, then INSERTs; the UNIQUE constraint on
`email` makes the INSERT fail with a duplicate-entry error exactly when a
row with this email already exists, in which case the table is unchanged. -/
def register_user {H : Type} (P : HashPrim H) (db : List (UserRow H))
    (email password salt : String) : (Bool × RegMsg) × List (UserRow H) :=
  let hashed := P.hashpw password salt
  if db.any (fun u => u.email == email) then ((false, RegMsg.duplicateEmail), db)
  else ((true, RegMsg.registered), db ++ [⟨email, hashed⟩])

/-- Result messages of `authenticate_user`, one constructor per message
string in the source. -/
inductive AuthMsg where
  | verified
  | incorrectPassword
  | emailNotFound
deriving DecidableEq, Repr

/-- `authenticate_user(email, password)` from bank_app.py lines 69-87:
looks up the stored hash by email (`fetchone`), verifies the password
against it with `bcrypt.checkpw`, and reports the three outcomes. -/
def authenticate_user {H : Type} (P : HashPrim H) (db : List (UserRow H))
    (email password : String) : Bool × AuthMsg :=
  match db.find? (fun u => u.email == email) with
  | some u =>
    if P.checkpw password u.password_hash then (true, AuthMsg.verified)
    else (false, AuthMsg.incorrectPassword)
  | none => (false, AuthMsg.emailNotFound)

/-- A concrete instantiation of the hashing primitive used to evaluate the
theorems on closed inputs: the hash records the salt and the password-derived
digest (here the password itself stands in for the derived key), and the
verifier re-derives and compares, as bcrypt's `checkpw` does. -/
def modelHash : HashPrim (String × String) where
  hashpw := fun password salt => (salt, password)
  checkpw := fun password h => h.2 == password

/-! ### Helper lemmas -/

theorem findAccount_setBalance (db : Ledger) (i : Nat) (f : ℚ → ℚ) :
    findAccount (setBalance db i f) i
      = (findAccount db i).map (fun a => { a with balance := f a.balance }) := by
  induction db with
  | nil => rfl
  | cons a t ih =>
    cases h : (a.id == i) with
    | true =>
      simp only [findAccount, setBalance, List.map_cons, List.find?_cons, h, if_true]
      simp [h]
    | false =>
      simp only [findAccount, setBalance, List.map_cons, List.find?_cons, h, if_false]
      simpa [findAccount, setBalance, h] using ih

theorem setBalance_id (db : Ledger) (i : Nat) :
    setBalance db i (fun b => b) = db := by
  induction db with
  | nil => rfl
  | cons a t ih =>
    cases a with
    | mk aid nm em bal =>
      cases h : (aid == i) with
      | true => simp [setBalance, h]
      | false => simp [setBalance, h]

theorem setBalance_comp (db : Ledger) (i : Nat) (f g : ℚ → ℚ) :
    setBalance (setBalance db i f) i g = setBalance db i (fun b => g (f b)) := by
  induction db with
  | nil => rfl
  | cons a t ih =>
    simp only [setBalance, List.map_cons] at ih ⊢
    rw [ih]
    cases a with
    | mk aid nm em bal =>
      cases h : (aid == i) with
      | true => simp [h]
      | false => simp [h]

theorem setBalance_add_sub_cancel (db : Ledger) (i : Nat) (amt : ℚ) :
    setBalance (setBalance db i (fun b => b + amt)) i (fun b => b - amt) = db := by
  rw [setBalance_comp]
  simpa [add_sub_cancel_right] using setBalance_id db i

theorem affectedRows_ne_zero (db : Ledger) (i : Nat) (amount : ℚ) (acc : Account)
    (h : findAccount db i = some acc) (ha : amount ≠ 0) :
    affectedRows db i amount ≠ 0 := by
  unfold affectedRows
  rw [if_neg ha]
  unfold findAccount at h
  have hmem : acc ∈ db := List.mem_of_find?_eq_some h
  have hp := List.find?_some h
  have hf : acc ∈ db.filter (fun a => a.id == i) := List.mem_filter.2 ⟨hmem, hp⟩
  have := List.length_pos.mpr (List.ne_nil_of_mem hf)
  omega

theorem find?_append_of_none {H : Type} (l l2 : List (UserRow H))
    (p : UserRow H → Bool) (h : l.find? p = none) :
    (l ++ l2).find? p = l2.find? p := by
  induction l with
  | nil => rfl
  | cons a t ih =>
    cases hp : p a with
    | true => rw [List.find?_cons_of_pos _ hp] at h; exact absurd h (by simp)
    | false =>
      rw [List.find?_cons_of_neg _ (by simp [hp])] at h
      rw [List.cons_append, List.find?_cons_of_neg _ (by simp [hp])]
      exact ih h

theorem withdraw_eq_of_le (db : Ledger) (accId : Nat) (amount : ℚ) (acc : Account)
    (hfind : findAccount db accId = some acc) (hne : amount ≠ 0)
    (hle : amount ≤ acc.balance) :
    update_balance db accId amount "WITHDRAW"
      = ((true, Msg.success "WITHDRAWAL"), setBalance db accId (fun b => b - amount)) := by
  have haff := affectedRows_ne_zero db accId amount acc hfind hne
  unfold update_balance
  simp only [hfind, if_neg (not_lt.mpr hle), if_neg haff, reduceIte]

theorem withdraw_eq_of_gt (db : Ledger) (accId : Nat) (amount : ℚ) (acc : Account)
    (hfind : findAccount db accId = some acc) (hlt : acc.balance < amount) :
    update_balance db accId amount "WITHDRAW"
      = ((false, Msg.insufficientBalance acc.balance), db) := by
  unfold update_balance
  simp only [hfind, if_pos hlt, reduceIte]

theorem deposit_eq (db : Ledger) (accId : Nat) (amount : ℚ) (acc : Account)
    (hfind : findAccount db accId = some acc) (hne : amount ≠ 0) :
    update_balance db accId amount "DEPOSIT"
      = ((true, Msg.success "DEPOSITED"), setBalance db accId (fun b => b + amount)) := by
  have haff := affectedRows_ne_zero db accId amount acc hfind hne
  unfold update_balance
  rw [if_neg (show ¬ (("DEPOSIT" : String) = "WITHDRAW") by decide), if_pos rfl,
    if_neg haff]

theorem get_balance_eq_found (db : Ledger) (accId : Nat) (acc : Account)
    (hfind : findAccount db accId = some acc) :
    get_balance db accId = (true, BalanceResult.found acc.name acc.balance) := by
  unfold get_balance
  rw [hfind]

/-! ### Claim theorems -/

/-- Claim C9: for every operation-kind string other than "DEPOSIT" and
"WITHDRAW", `update_balance` returns the "Invalid operation type" failure
and leaves the accounts table unchanged (no mutating statement is issued). -/
theorem invalid_operation_spec (db : Ledger) (accId : Nat) (amount : ℚ)
    (operation : String) (h1 : operation ≠ "DEPOSIT") (h2 : operation ≠ "WITHDRAW") :
    update_balance db accId amount operation = ((false, Msg.invalidOperation), db) := by
  unfold update_balance
  rw [if_neg h2, if_neg h1]

/-- Witness for C9 at the concrete operation string "TRANSFER". -/
theorem invalid_operation_spec_witness :
    ("TRANSFER" ≠ "DEPOSIT") ∧ ("TRANSFER" ≠ "WITHDRAW") ∧
      update_balance [] 1 5 "TRANSFER" = ((false, Msg.invalidOperation), []) :=
  ⟨by decide, by decide, invalid_operation_spec [] 1 5 "TRANSFER" (by decide) (by decide)⟩

/-- Claim C8: `get_balance` on an id matching no stored row fails with the
account-not-found message and never returns a (partial) name/balance
record; on an id matching a row it returns that row's name and balance. -/
theorem get_balance_spec (db : Ledger) (accId : Nat) :
    (findAccount db accId = none →
        get_balance db accId = (false, BalanceResult.accountNotFound))
    ∧ (∀ acc : Account, findAccount db accId = some acc →
        get_balance db accId = (true, BalanceResult.found acc.name acc.balance))
    ∧ ((get_balance db accId).1 = false ↔ findAccount db accId = none) := by
  unfold get_balance
  cases h : findAccount db accId with
  | none => simp
  | some a => simp

/-- Witness for C8: a missing id and a present id. -/
theorem get_balance_spec_witness :
    (findAccount [] 7 = none ∧ get_balance [] 7 = (false, BalanceResult.accountNotFound))
    ∧ (findAccount [⟨1, "A", "a@x.com", 100⟩] 1 = some ⟨1, "A", "a@x.com", 100⟩
       ∧ get_balance [⟨1, "A", "a@x.com", 100⟩] 1 = (true, BalanceResult.found "A" 100)) :=
  ⟨⟨by decide, (get_balance_spec [] 7).1 (by decide)⟩,
   ⟨by decide,
    (get_balance_spec [⟨1, "A", "a@x.com", 100⟩] 1).2.1 ⟨1, "A", "a@x.com", 100⟩ (by decide)⟩⟩

/-- Claim C10 counterexample: the output of `get_all_accounts` on a store
failure is not equal to its output on a genuinely empty accounts table, so
the two are distinguishable at the operation's interface (the column lists
differ). -/
theorem get_all_accounts_error_cex :
    get_all_accounts none ≠ get_all_accounts (some []) := by decide

/-- Claim C10 (amended): when listing accounts fails with a persistence
error, `get_all_accounts` returns the empty column list and empty row
sequence rather than an error value; the row sequence matches a genuinely
empty ledger's, but the column list differs (empty instead of the four
column names), so the two outcomes are distinguishable at the interface. -/
theorem get_all_accounts_error_empty :
    get_all_accounts none = ([], [])
    ∧ (get_all_accounts none).2 = (get_all_accounts (some [])).2
    ∧ (get_all_accounts none).1 ≠ (get_all_accounts (some [])).1 := by decide

/-- Claim C1: for every existing account and amount > 0, a WITHDRAW via
`update_balance` succeeds if and only if the amount is at most the current
balance, in which case the stored balance becomes the old balance minus
the amount (hence stays ≥ 0); if the amount exceeds the current balance it
fails with the insufficient-balance message reporting the current balance
and leaves the table unchanged. -/
theorem withdraw_spec (db : Ledger) (accId : Nat) (amount : ℚ) (acc : Account)
    (hfind : findAccount db accId = some acc) (hpos : 0 < amount) :
    ((update_balance db accId amount "WITHDRAW").1.1 = true ↔ amount ≤ acc.balance)
    ∧ (amount ≤ acc.balance →
        update_balance db accId amount "WITHDRAW"
          = ((true, Msg.success "WITHDRAWAL"), setBalance db accId (fun b => b - amount))
        ∧ findAccount (update_balance db accId amount "WITHDRAW").2 accId
            = some { acc with balance := acc.balance - amount }
        ∧ 0 ≤ acc.balance - amount)
    ∧ (acc.balance < amount →
        update_balance db accId amount "WITHDRAW"
          = ((false, Msg.insufficientBalance acc.balance), db)) := by
  have hne : amount ≠ 0 := ne_of_gt hpos
  by_cases hle : amount ≤ acc.balance
  · have heq := withdraw_eq_of_le db accId amount acc hfind hne hle
    refine ⟨by simp [heq, hle], fun _ => ⟨heq, ?_, by linarith⟩,
      fun hlt => absurd hlt (not_lt.mpr hle)⟩
    rw [heq]
    simp [findAccount_setBalance, hfind]
  · have hlt : acc.balance < amount := not_le.mp hle
    have heq := withdraw_eq_of_gt db accId amount acc hfind hlt
    exact ⟨by simp [heq, hle], fun h => absurd h hle, fun _ => heq⟩

/-- Witness for C1: on the account ⟨1, "A", a@x.com, 100⟩, withdrawing 150
fails reporting balance 100, and withdrawing 50 succeeds. -/
theorem withdraw_spec_witness :
    (findAccount [⟨1, "A", "a@x.com", 100⟩] 1 = some ⟨1, "A", "a@x.com", 100⟩
      ∧ (0 : ℚ) < 150 ∧ (0 : ℚ) < 50)
    ∧ update_balance [⟨1, "A", "a@x.com", 100⟩] 1 150 "WITHDRAW"
        = ((false, Msg.insufficientBalance 100), [⟨1, "A", "a@x.com", 100⟩])
    ∧ (update_balance [⟨1, "A", "a@x.com", 100⟩] 1 50 "WITHDRAW").1.1 = true :=
  ⟨⟨by decide, by decide, by decide⟩,
   (withdraw_spec [⟨1, "A", "a@x.com", 100⟩] 1 150 ⟨1, "A", "a@x.com", 100⟩
      (by decide) (by decide)).2.2 (by decide),
   ((withdraw_spec [⟨1, "A", "a@x.com", 100⟩] 1 50 ⟨1, "A", "a@x.com", 100⟩
      (by decide) (by decide)).1).mpr (by decide)⟩

/-- Claim C2: for every existing account (with the non-negative balance the
system maintains) and every amount > 0, the DEPOSIT of the amount succeeds,
the WITHDRAW of the same amount right after succeeds as well, and this
round trip returns the accounts table — in particular this account's
balance — to its state before the deposit (exactly, hence in particular up
to the 2-decimal currency precision). -/
theorem deposit_withdraw_roundtrip (db : Ledger) (accId : Nat) (amount : ℚ)
    (acc : Account) (hfind : findAccount db accId = some acc) (hpos : 0 < amount)
    (hnn : 0 ≤ acc.balance) :
    ((update_balance db accId amount "DEPOSIT").1).1 = true
    ∧ ((update_balance (update_balance db accId amount "DEPOSIT").2
        accId amount "WITHDRAW").1).1 = true
    ∧ (update_balance (update_balance db accId amount "DEPOSIT").2
        accId amount "WITHDRAW").2 = db
    ∧ findAccount (update_balance (update_balance db accId amount "DEPOSIT").2
        accId amount "WITHDRAW").2 accId = some acc := by
  have hne : amount ≠ 0 := ne_of_gt hpos
  have hdep := deposit_eq db accId amount acc hfind hne
  have hfind2 : findAccount (setBalance db accId (fun b => b + amount)) accId
      = some { acc with balance := acc.balance + amount } := by
    rw [findAccount_setBalance, hfind]; rfl
  have hle : amount ≤ acc.balance + amount := by linarith
  have hwd := withdraw_eq_of_le (setBalance db accId (fun b => b + amount)) accId amount
    { acc with balance := acc.balance + amount } hfind2 hne hle
  have hfin : (update_balance (update_balance db accId amount "DEPOSIT").2
      accId amount "WITHDRAW").2 = db := by
    rw [hdep]
    simp only [hwd]
    exact setBalance_add_sub_cancel db accId amount
  refine ⟨by rw [hdep], ?_, hfin, by rw [hfin, hfind]⟩
  rw [hdep]
  simp only [hwd]

/-- Witness for C2 on the account ⟨1, "A", a@x.com, 100⟩ with amount 25. -/
theorem deposit_withdraw_roundtrip_witness :
    (findAccount [⟨1, "A", "a@x.com", 100⟩] 1 = some ⟨1, "A", "a@x.com", 100⟩
      ∧ (0 : ℚ) < 25 ∧ (0 : ℚ) ≤ 100)
    ∧ ((update_balance (update_balance [⟨1, "A", "a@x.com", 100⟩] 1 25 "DEPOSIT").2
          1 25 "WITHDRAW").1).1 = true
    ∧ (update_balance (update_balance [⟨1, "A", "a@x.com", 100⟩] 1 25 "DEPOSIT").2
        1 25 "WITHDRAW").2 = [⟨1, "A", "a@x.com", 100⟩] :=
  ⟨⟨by decide, by decide, by decide⟩,
   (deposit_withdraw_roundtrip [⟨1, "A", "a@x.com", 100⟩] 1 25 ⟨1, "A", "a@x.com", 100⟩
      (by decide) (by decide) (by decide)).2.1,
   (deposit_withdraw_roundtrip [⟨1, "A", "a@x.com", 100⟩] 1 25 ⟨1, "A", "a@x.com", 100⟩
      (by decide) (by decide) (by decide)).2.2.1⟩

/-- Claim C4: the user-facing transaction operation (`transaction_ui`, with
amount > 0 and a valid account id), on a successful DEPOSIT or WITHDRAW,
displays the account's new balance to the caller. -/
theorem transact_returns_new_balance (db : Ledger) (accId : Nat) (amount : ℚ)
    (acc : Account) (operation : String)
    (hfind : findAccount db accId = some acc) (hpos : 0 < amount) (hid : 1 ≤ accId) :
    (operation = "DEPOSIT" →
        (transaction_ui db accId amount operation).1 = some (acc.balance + amount))
    ∧ (operation = "WITHDRAW" → amount ≤ acc.balance →
        (transaction_ui db accId amount operation).1 = some (acc.balance - amount)) := by
  have hne : amount ≠ 0 := ne_of_gt hpos
  constructor
  · intro hop
    subst hop
    have hdep := deposit_eq db accId amount acc hfind hne
    have hfind2 : findAccount (setBalance db accId (fun b => b + amount)) accId
        = some { acc with balance := acc.balance + amount } := by
      rw [findAccount_setBalance, hfind]; rfl
    have hgb := get_balance_eq_found (setBalance db accId (fun b => b + amount)) accId
      { acc with balance := acc.balance + amount } hfind2
    unfold transaction_ui
    rw [if_neg (not_le.mpr hpos), if_neg (by omega : ¬ accId < 1)]
    simp [hdep, hgb]
  · intro hop hle
    subst hop
    have hwd := withdraw_eq_of_le db accId amount acc hfind hne hle
    have hfind2 : findAccount (setBalance db accId (fun b => b - amount)) accId
        = some { acc with balance := acc.balance - amount } := by
      rw [findAccount_setBalance, hfind]; rfl
    have hgb := get_balance_eq_found (setBalance db accId (fun b => b - amount)) accId
      { acc with balance := acc.balance - amount } hfind2
    unfold transaction_ui
    rw [if_neg (not_le.mpr hpos), if_neg (by omega : ¬ accId < 1)]
    simp [hwd, hgb]

/-- Witness for C4: depositing 25 on account 1 (balance 100) displays 125,
withdrawing 50 displays 50. -/
theorem transact_returns_new_balance_witness :
    (findAccount [⟨1, "A", "a@x.com", 100⟩] 1 = some ⟨1, "A", "a@x.com", 100⟩
      ∧ (0 : ℚ) < 25 ∧ (1 : Nat) ≤ 1)
    ∧ (transaction_ui [⟨1, "A", "a@x.com", 100⟩] 1 25 "DEPOSIT").1 = some 125
    ∧ (transaction_ui [⟨1, "A", "a@x.com", 100⟩] 1 50 "WITHDRAW").1 = some 50 := by
  refine ⟨⟨by decide, by decide, by decide⟩, ?_, ?_⟩
  · have h := (transact_returns_new_balance [⟨1, "A", "a@x.com", 100⟩] 1 25
      ⟨1, "A", "a@x.com", 100⟩ "DEPOSIT" (by decide) (by decide) (by decide)).1 rfl
    rw [h]
    norm_num
  · have h := (transact_returns_new_balance [⟨1, "A", "a@x.com", 100⟩] 1 50
      ⟨1, "A", "a@x.com", 100⟩ "WITHDRAW" (by decide) (by decide) (by decide)).2 rfl
      (by decide)
    rw [h]
    norm_num

/-- Claim C6: after a successful registration of an email, a second
registration attempt with the same email fails with the duplicate-email
error, leaves the users table unchanged, and the stored hash for that
email is still the hash produced by the first registration. -/
theorem duplicate_email_spec {H : Type} (P : HashPrim H) (db db1 : List (UserRow H))
    (e p1 s1 p2 s2 : String) (m : RegMsg)
    (h1 : register_user P db e p1 s1 = ((true, m), db1)) :
    register_user P db1 e p2 s2 = ((false, RegMsg.duplicateEmail), db1)
    ∧ db1.find? (fun u => u.email == e) = some ⟨e, P.hashpw p1 s1⟩ := by
  unfold register_user at h1 ⊢
  by_cases ha : db.any (fun u => u.email == e)
  · rw [if_pos ha] at h1
    exact absurd (congrArg (fun x => x.1.1) h1) (by simp)
  · rw [if_neg ha] at h1
    have hB : db ++ [(⟨e, P.hashpw p1 s1⟩ : UserRow H)] = db1 := congrArg Prod.snd h1
    subst hB
    have hall : ∀ u ∈ db, ¬ (u.email == e) = true := fun u hu hpred =>
      ha (List.any_eq_true.2 ⟨u, hu, hpred⟩)
    have hfnone : db.find? (fun u => u.email == e) = none := List.find?_eq_none.2 hall
    have hmem : (⟨e, P.hashpw p1 s1⟩ : UserRow H)
        ∈ db ++ [(⟨e, P.hashpw p1 s1⟩ : UserRow H)] :=
      List.mem_append_right _ (List.mem_singleton.2 rfl)
    have hany : (db ++ [(⟨e, P.hashpw p1 s1⟩ : UserRow H)]).any
        (fun u => u.email == e) = true :=
      List.any_eq_true.2 ⟨⟨e, P.hashpw p1 s1⟩, hmem, by simp⟩
    refine ⟨by rw [if_pos hany], ?_⟩
    rw [find?_append_of_none _ _ _ hfnone]
    simp [List.find?]

/-- Witness for C6: registering a@x.com, then registering it again. -/
theorem duplicate_email_spec_witness :
    register_user modelHash [] "a@x.com" "secret1" "s1"
        = ((true, RegMsg.registered), [⟨"a@x.com", ("s1", "secret1")⟩])
    ∧ register_user modelHash [⟨"a@x.com", ("s1", "secret1")⟩] "a@x.com" "other12" "s2"
        = ((false, RegMsg.duplicateEmail), [⟨"a@x.com", ("s1", "secret1")⟩]) :=
  ⟨by decide,
   (duplicate_email_spec modelHash [] [⟨"a@x.com", ("s1", "secret1")⟩] "a@x.com"
      "secret1" "s1" "other12" "s2" RegMsg.registered (by decide)).1⟩

/-- Claim C7: when the stored record for an email holds the hash of the
registered password, authentication with that password succeeds,
authentication with any other password fails with the wrong-password
message, and authentication for any email with no stored record fails
with the email-not-found message.  The hashing primitive is assumed
correct (verification accepts the hashed password and only it). -/
theorem authenticate_spec {H : Type} (P : HashPrim H)
    (hc : ∀ p s, P.checkpw p (P.hashpw p s) = true)
    (hs : ∀ p q s, P.checkpw q (P.hashpw p s) = true → q = p)
    (db : List (UserRow H)) (e p s : String)
    (hfind : db.find? (fun u => u.email == e) = some ⟨e, P.hashpw p s⟩) :
    authenticate_user P db e p = (true, AuthMsg.verified)
    ∧ (∀ q, q ≠ p → authenticate_user P db e q = (false, AuthMsg.incorrectPassword))
    ∧ (∀ e2 p2, db.find? (fun u => u.email == e2) = none →
        authenticate_user P db e2 p2 = (false, AuthMsg.emailNotFound)) := by
  refine ⟨?_, ?_, ?_⟩
  · simp [authenticate_user, hfind, hc p s]
  · intro q hq
    have hcq : P.checkpw q (P.hashpw p s) = false := by
      cases hh : P.checkpw q (P.hashpw p s) with
      | false => rfl
      | true => exact absurd (hs p q s hh) hq
    simp [authenticate_user, hfind, hcq]
  · intro e2 p2 hnone
    simp [authenticate_user, hnone]

/-- Witness for C7: with a@x.com registered with password secret1, the
right password verifies, a wrong one is rejected, an unknown email is
not found. -/
theorem authenticate_spec_witness :
    ([⟨"a@x.com", ("s1", "secret1")⟩] : List (UserRow (String × String))).find?
        (fun u => u.email == "a@x.com")
        = some ⟨"a@x.com", modelHash.hashpw "secret1" "s1"⟩
    ∧ authenticate_user modelHash [⟨"a@x.com", ("s1", "secret1")⟩] "a@x.com" "secret1"
        = (true, AuthMsg.verified)
    ∧ authenticate_user modelHash [⟨"a@x.com", ("s1", "secret1")⟩] "a@x.com" "wrong"
        = (false, AuthMsg.incorrectPassword)
    ∧ authenticate_user modelHash [⟨"a@x.com", ("s1", "secret1")⟩] "b@x.com" "secret1"
        = (false, AuthMsg.emailNotFound) :=
  ⟨by decide,
   (authenticate_spec modelHash (fun p s => by simp [modelHash])
      (fun p q s h => by simp [modelHash] at h; exact h.symm)
      [⟨"a@x.com", ("s1", "secret1")⟩] "a@x.com" "secret1" "s1" (by decide)).1,
   (authenticate_spec modelHash (fun p s => by simp [modelHash])
      (fun p q s h => by simp [modelHash] at h; exact h.symm)
      [⟨"a@x.com", ("s1", "secret1")⟩] "a@x.com" "secret1" "s1" (by decide)).2.1
      "wrong" (by decide),
   (authenticate_spec modelHash (fun p s => by simp [modelHash])
      (fun p q s h => by simp [modelHash] at h; exact h.symm)
      [⟨"a@x.com", ("s1", "secret1")⟩] "a@x.com" "secret1" "s1" (by decide)).2.2
      "b@x.com" "secret1" (by decide)⟩

/-- Claim C3: the connection procedure makes at most `MAX_RETRIES = 5`
attempts; it sleeps exactly `RETRY_DELAY = 2` time-units between
consecutive failed attempts and never after the last one (one sleep fewer
than attempts); if some attempt up to the 5th succeeds, the loop returns
the handle of the first succeeding attempt, having made that many
attempts, with no user-visible error and no halt; if all 5 attempts fail,
no handle is returned and the process halts with the user-visible fatal
error message (no exception propagates). -/
theorem connect_retry_spec (b : Fin 5 → Bool) :
    countAttempts (connectRun b).2 ≤ MAX_RETRIES
    ∧ countSleeps (connectRun b).2 = countAttempts (connectRun b).2 - 1
    ∧ sleepsOk (connectRun b).2 = true
    ∧ ((∃ i : Fin 5, b i = false) →
        (∃ i : Fin 5, (connectRun b).1 = some i.val ∧ b i = false
          ∧ (∀ j : Fin 5, j < i → b j = true)
          ∧ countAttempts (connectRun b).2 = i.val + 1)
        ∧ Event.errorShown ∉ (connectRun b).2 ∧ Event.stopped ∉ (connectRun b).2)
    ∧ ((∀ i : Fin 5, b i = true) →
        (connectRun b).1 = none ∧ Event.errorShown ∈ (connectRun b).2
        ∧ Event.stopped ∈ (connectRun b).2
        ∧ countAttempts (connectRun b).2 = MAX_RETRIES) := by
  revert b
  decide

/-- Witness for C3 on the spec's two connectivity scenarios: failures on
the first 4 attempts and success on the 5th give a silent success on
attempt index 4; failures on all 5 attempts give no handle and the fatal
message followed by the halt. -/
theorem connect_retry_spec_witness :
    ((∃ i : Fin 5, (fun j : Fin 5 => decide (j.val < 4)) i = false)
      ∧ (connectRun (fun j : Fin 5 => decide (j.val < 4))).1 = some 4
      ∧ Event.errorShown ∉ (connectRun (fun j : Fin 5 => decide (j.val < 4))).2
      ∧ Event.stopped ∉ (connectRun (fun j : Fin 5 => decide (j.val < 4))).2)
    ∧ ((∀ i : Fin 5, (fun _ : Fin 5 => true) i = true)
      ∧ (connectRun (fun _ : Fin 5 => true)).1 = none
      ∧ Event.errorShown ∈ (connectRun (fun _ : Fin 5 => true)).2
      ∧ Event.stopped ∈ (connectRun (fun _ : Fin 5 => true)).2) :=
  ⟨⟨by decide, by decide,
    ((connect_retry_spec (fun j : Fin 5 => decide (j.val < 4))).2.2.2.1 (by decide)).2.1,
    ((connect_retry_spec (fun j : Fin 5 => decide (j.val < 4))).2.2.2.1 (by decide)).2.2⟩,
   ⟨by decide,
    ((connect_retry_spec (fun _ : Fin 5 => true)).2.2.2.2 (by decide)).1,
    ((connect_retry_spec (fun _ : Fin 5 => true)).2.2.2.2 (by decide)).2.1,
    ((connect_retry_spec (fun _ : Fin 5 => true)).2.2.2.2 (by decide)).2.2.1⟩⟩

/-- Claim C5 counterexample: the connection cache does not survive the whole
process.  Starting from an empty cache, `connect` opens handle 0; a
successful deposit through `update_balance_app` then clears the cache
(the `connect.clear()` on bank_app.py line 206), so the next `connect`
call opens the distinct fresh handle 1 instead of returning handle 0. -/
theorem connect_memoization_cex :
    (connect ⟨none, 0⟩).1 = 0
    ∧ (update_balance_app (connect ⟨none, 0⟩).2 [⟨1, "A", "a@x.com", 100⟩] 1 5 "DEPOSIT").1
        = ⟨none, 1⟩
    ∧ (connect (update_balance_app (connect ⟨none, 0⟩).2
        [⟨1, "A", "a@x.com", 100⟩] 1 5 "DEPOSIT").1).1 = 1
    ∧ (1 : Nat) ≠ 0 := by decide

/-- Claim C5 (amended): `connect` is memoized only until invalidated: a
call finding a cached handle returns it with the cache unchanged (so
repeated calls keep returning the same handle with no reconnection as
long as no invalidation happens), but successful `update_balance` and
`create_account_db` calls clear the cache via `connect.clear`, and a
`connect` call on a cleared cache performs the real connection work
again, producing a fresh handle. -/
theorem connect_memoized_until_cleared :
    (∀ s : Cache, connect (connect s).2 = ((connect s).1, (connect s).2))
    ∧ (∀ (s : Cache) (db : Ledger) (accId : Nat) (amount : ℚ) (operation : String),
        (update_balance db accId amount operation).1.1 = true →
          (update_balance_app s db accId amount operation).1
            = connect.clear (connect s).2)
    ∧ (∀ (s : Cache) (db : Ledger) (nm em : String) (bal : ℚ),
        (create_account_db true s db nm em bal).1 = connect.clear (connect s).2)
    ∧ (∀ s : Cache, (connect (connect.clear s)).1 = s.nextHandle
        ∧ (connect (connect.clear s)).2.nextHandle = s.nextHandle + 1) := by
  refine ⟨?_, ?_, ?_, ?_⟩
  · intro s
    cases s with
    | mk c n => cases c <;> rfl
  · intro s db accId amount operation h
    unfold update_balance_app
    simp [h]
  · intro s db nm em bal
    rfl
  · intro s
    exact ⟨rfl, rfl⟩

/-- Witness for C5 (amended): a concrete successful deposit clears the
cache, and a cache hit returns the cached handle unchanged. -/
theorem connect_memoized_until_cleared_witness :
    (update_balance [⟨1, "A", "a@x.com", 100⟩] 1 5 "DEPOSIT").1.1 = true
    ∧ (update_balance_app ⟨some 0, 1⟩ [⟨1, "A", "a@x.com", 100⟩] 1 5 "DEPOSIT").1
        = connect.clear (connect ⟨some 0, 1⟩).2
    ∧ connect (connect ⟨none, 0⟩).2 = ((connect ⟨none, 0⟩).1, (connect ⟨none, 0⟩).2) :=
  ⟨by decide,
   connect_memoized_until_cleared.2.1 ⟨some 0, 1⟩ [⟨1, "A", "a@x.com", 100⟩] 1 5
     "DEPOSIT" (by decide),
   connect_memoized_until_cleared.1 ⟨none, 0⟩⟩

end Bank
